import Mathlib

/-!
Verification development for the aadhaar-prerana repository.

The repository ships a React dashboard (App.jsx and the engine card
components) whose behaviour over its hardcoded data is embedded directly.
The analytical core (event store, aggregation windows, anomaly scorer,
corridor tracker, gap ranking, freeze administration) is described by the
project documentation but its implementation is not present in the source
tree, so those parts are modelled from the specification text and the
claims are settled against that model.
-/

namespace Prerana

/-! Dashboard code: summary stats and the action handler (App.jsx) -/

/-- The four summary-stat values of App.jsx (`summaryStats`), by id:
`total-updates`, `migration-alerts`, `fraud-flags`, `exclusion-risk`.
JavaScript numbers holding integer counts are embedded as `Int`. -/
structure SummaryStats where
  totalUpdates : Int
  migrationAlerts : Int
  fraudFlags : Int
  exclusionRisk : Int
deriving DecidableEq, Repr

/-- The initial `summaryStats` literal of App.jsx lines 19-24. -/
def initialSummaryStats : SummaryStats :=
  ⟨234567, 23, 7, 45230⟩

/-- The stat-updating part of `handleAction` in App.jsx lines 70-77:
an if/else-if chain on the action name; each branch maps over the stats
and rewrites the single stat with the matching id, clamping with
`Math.max(0, ...)`. Unrecognized actions leave the stats unchanged. -/
def handleActionStats (action : String) (s : SummaryStats) : SummaryStats :=
  if action = "allocate-ration" then
    { s with migrationAlerts := max 0 (s.migrationAlerts - 1) }
  else if action = "freeze-updates" then
    { s with fraudFlags := max 0 (s.fraudFlags - 1) }
  else if action = "deploy-van" then
    { s with exclusionRisk := max 0 (s.exclusionRisk - 500) }
  else s

/-- All four stat values are non-negative. -/
def StatsNonneg (s : SummaryStats) : Prop :=
  0 ≤ s.totalUpdates ∧ 0 ≤ s.migrationAlerts ∧ 0 ≤ s.fraudFlags ∧ 0 ≤ s.exclusionRisk

/-- The number of stat fields on which two states differ. -/
def changedFields (a b : SummaryStats) : Nat :=
  (if a.totalUpdates = b.totalUpdates then 0 else 1) +
  (if a.migrationAlerts = b.migrationAlerts then 0 else 1) +
  (if a.fraudFlags = b.fraudFlags then 0 else 1) +
  (if a.exclusionRisk = b.exclusionRisk then 0 else 1)

/-! Dashboard code: GenesisTrigger district data

Embeds the `districtData` array (lines 5-10) and `totalGap`
(line 27) of the GenesisTrigger component used by App.jsx (the variant
taking the `onAction` prop). -/

/-- One row of the hardcoded `districtData` array. -/
structure DistrictRow where
  name : String
  enrolled : Nat
  updated : Nat
  gap : Nat
deriving DecidableEq, Repr

/-- The `districtData` literal of GenesisTrigger, lines 5-10. -/
def districtData : List DistrictRow :=
  [⟨"Sitamarhi", 15000, 4000, 11000⟩,
   ⟨"Darbhanga", 12500, 5200, 7300⟩,
   ⟨"Madhubani", 10800, 3600, 7200⟩,
   ⟨"Saharsa", 9200, 4100, 5100⟩]

/-- `totalGap = districtData.reduce((sum, d) => sum + d.gap, 0)`,
GenesisTrigger line 27. -/
def totalGap : Nat :=
  List.foldl (fun sum d => sum + d.gap) 0 districtData

/-! Streaming engine, modelled from the specification

The analytical core (event store, aggregation windows, anomaly scorer,
corridor tracker, gap ranking, freeze administration) described in
spec sections 3-6 has no implementation under the source tree; the
definitions below model it from the specification text. -/

/-- Modelled from the spec: the three event types of the data model, section 3.
The engine implementation is absent from the source tree. -/
inductive EventType where
  | enrolment
  | demographicUpdate
  | biometricUpdate
deriving DecidableEq, Repr

/-- Modelled from the spec: event location (pincode, district, state), section 3. -/
structure Location where
  pincode : String
  district : String
  state : String
deriving DecidableEq, Repr

/-- Modelled from the spec: an identity-update event, section 3 (immutable once
appended). Age band and gender attributes feed the cohort key of section 4.2. -/
structure Event where
  subjectId : Nat
  eventType : EventType
  fieldChanged : Option String
  oldValue : String
  newValue : String
  location : Location
  ageBand : String
  gender : String
  timestamp : Nat
deriving DecidableEq, Repr

/-- Cohort key: age band × gender × pincode × update type (section 4.2 and
glossary). -/
abbrev CohortKey := String × String × String × EventType

/-- The cohort key computed from an event's attributes (section 4.2). -/
def eventCohortKey (e : Event) : CohortKey :=
  (e.ageBand, e.gender, e.location.pincode, e.eventType)

/-- Fixed size of an aggregation time bucket (section 4.2, e.g. 24h). -/
def bucketSize : Nat := 24

/-- The bucket index a timestamp falls into. -/
def bucketOf (ts : Nat) : Nat := ts / bucketSize

/-- Modelled from the spec: a finalized cohort window (section 3 CohortWindow
after closure: cohort key, bucket, finalized event count). -/
structure ClosedWindow where
  key : CohortKey
  bucket : Nat
  count : Nat
deriving DecidableEq, Repr

/-- Modelled from the spec: the aggregation-window state of section 4.2 —
running counts of open windows, the append-only list of closed windows, and
the `late_events` data-quality side-counter. -/
structure AggState where
  openCounts : List (CohortKey × Nat × Nat)
  closedWindows : List ClosedWindow
  lateEvents : Nat
deriving DecidableEq, Repr

/-- The closed-window record for (key, bucket), if that window was closed. -/
def findClosed (s : AggState) (k : CohortKey) (b : Nat) : Option ClosedWindow :=
  s.closedWindows.find? fun w => decide (w.key = k ∧ w.bucket = b)

/-- Whether the (cohort key, bucket) window has already been closed. -/
def isClosedWindow (s : AggState) (k : CohortKey) (b : Nat) : Bool :=
  (findClosed s k b).isSome

/-- Increment the open running count for (key, bucket), creating it at 1. -/
def bumpOpen : List (CohortKey × Nat × Nat) → CohortKey → Nat →
    List (CohortKey × Nat × Nat)
  | [], k, b => [(k, b, 1)]
  | (k0, b0, c) :: rest, k, b =>
    if k0 = k ∧ b0 = b then (k0, b0, c + 1) :: rest
    else (k0, b0, c) :: bumpOpen rest k b

/-- The running count of the open window for (key, bucket), 0 if absent. -/
def lookupOpen (s : AggState) (k : CohortKey) (b : Nat) : Nat :=
  match s.openCounts.find? (fun kv => decide (kv.1 = k ∧ kv.2.1 = b)) with
  | some kv => kv.2.2
  | none => 0

/-- Drop the open running count for (key, bucket). -/
def removeOpen (s : AggState) (k : CohortKey) (b : Nat) :
    List (CohortKey × Nat × Nat) :=
  s.openCounts.filter fun kv => !decide (kv.1 = k ∧ kv.2.1 = b)

/-- Modelled from the spec: `ingest(event)` of section 4.2 — computes the
cohort key and increments the open window for that key; if the event's
bucket is already closed (late-arriving event) it is counted in the
`late_events` side-counter and does NOT reopen the closed window. -/
def aggIngest (s : AggState) (e : Event) : AggState :=
  let k := eventCohortKey e
  let b := bucketOf e.timestamp
  if isClosedWindow s k b then { s with lateEvents := s.lateEvents + 1 }
  else { s with openCounts := bumpOpen s.openCounts k b }

/-- Modelled from the spec: `close_window(cohort_key, window_end)` of
sections 4.2 and 5 — finalizes the open count into an immutable closed
window and returns it; closing an already-closed window is a no-op (the
existing record is returned), not an error. -/
def closeWindow (s : AggState) (k : CohortKey) (b : Nat) :
    AggState × ClosedWindow :=
  match findClosed s k b with
  | some w => (s, w)
  | none =>
    let w : ClosedWindow := ⟨k, b, lookupOpen s k b⟩
    ({ s with openCounts := removeOpen s k b,
              closedWindows := s.closedWindows ++ [w] }, w)

/-! Anomaly scorer (spec section 4.3) -/

/-- The arithmetic mean of a list of counts, as a rational (0 for the empty
list, since 0 / 0 = 0 in `ℚ`). -/
def listMean (l : List Nat) : ℚ := (l.sum : ℚ) / (l.length : ℚ)

/-- Modelled from the spec: the sample variance of the trailing baseline
counts (section 4.3); 0 for fewer than two samples. The sample standard
deviation σ of the spec is its square root, so σ = 0 exactly when the
sample variance is 0. -/
def sampleVariance (l : List Nat) : ℚ :=
  if l.length ≤ 1 then 0
  else (l.map fun x => ((x : ℚ) - listMean l) ^ 2).sum / ((l.length : ℚ) - 1)

/-- An exact representation of the z value: `val q` is a rational z (the
degenerate σ = 0 branch yields exactly 0 or the sentinel 999);
`overSqrt d v` denotes the real number d / √v for v > 0, kept in exact
form since √v is irrational in general. -/
inductive ZVal where
  | val (q : ℚ)
  | overSqrt (d : ℚ) (v : ℚ)
deriving DecidableEq, Repr

/-- Scoring status (section 7: `InsufficientBaseline` is a status, not a
failure). -/
inductive ScoreStatus where
  | ok
  | insufficientBaseline
deriving DecidableEq, Repr

/-- Result of scoring a closed window (section 4.3). -/
structure ScoreResult where
  status : ScoreStatus
  zScore : ZVal
  isAnomalous : Bool
deriving DecidableEq, Repr

/-- Default minimum baseline size (section 4.3, default 7). -/
def defaultMinBaseline : Nat := 7

/-- Default anomaly threshold (section 4.3, default 3.0). -/
def defaultThreshold : ℚ := 3

/-- Modelled from the spec: the anomaly scorer of section 4.3. With fewer
than `minBaseline` prior closed windows the result is
`INSUFFICIENT_BASELINE`, never anomalous regardless of z. Otherwise μ and
the sample variance of the baseline counts are computed; if σ = 0
(variance 0) the z-score is 0 when the count equals μ and the finite
sentinel 999 otherwise — no division is performed and every branch
returns a total, finite rational (`ℚ` has no NaN). Otherwise
z = (count - μ)/σ, kept exactly as `ZVal.overSqrt`, and the window is
anomalous when z exceeds the (non-negative) threshold, decided by the
equivalent sign-and-squares comparison. -/
def scoreWindow (minBaseline : Nat) (threshold : ℚ) (count : Nat)
    (baseline : List Nat) : ScoreResult :=
  if baseline.length < minBaseline then
    ⟨.insufficientBaseline, .val 0, false⟩
  else
    let μ := listMean baseline
    let v := sampleVariance baseline
    if v = 0 then
      if (count : ℚ) = μ then ⟨.ok, .val 0, decide (threshold < 0)⟩
      else ⟨.ok, .val 999, decide (threshold < 999)⟩
    else
      ⟨.ok, .overSqrt ((count : ℚ) - μ) v,
        decide (0 < (count : ℚ) - μ ∧
          threshold ^ 2 * v < ((count : ℚ) - μ) ^ 2)⟩

/-! Corridor velocity (spec section 4.4) -/

/-- Modelled from the spec: the corridor baseline count at window closure —
the mean of the trailing windows' update counts for the same
(source, destination) pair (section 4.4). -/
def corridorBaseline (hist : List Nat) : ℚ := listMean hist

/-- Modelled from the spec: `velocity_change_pct` at window closure
(section 4.4) — (update_count - baseline_count) / baseline_count * 100
when baseline_count is nonzero; `none` (unbounded, "new corridor") when
baseline_count = 0, rather than a numeric ratio. -/
def velocityChangePct (updateCount : Nat) (baselineCount : ℚ) : Option ℚ :=
  if baselineCount = 0 then none
  else some (((updateCount : ℚ) - baselineCount) / baselineCount * 100)

/-- Corridor scoring at window closure from the trailing history. -/
def scoreCorridor (updateCount : Nat) (hist : List Nat) : Option ℚ :=
  velocityChangePct updateCount (corridorBaseline hist)

/-! District gap ranking (spec section 4.5) -/

/-- A per-district gap aggregate: (district, gap_rate, gap_count),
section 4.5. -/
structure DistrictGap where
  district : String
  gapRate : ℚ
  gapCount : Nat
deriving DecidableEq, Repr

/-- Modelled from the spec: the ranking order of section 4.5 — descending by
gap_count, ties broken by gap_rate descending, then district name
ascending. -/
def gapOrder (a b : DistrictGap) : Prop :=
  b.gapCount < a.gapCount ∨
    (a.gapCount = b.gapCount ∧
      (b.gapRate < a.gapRate ∨
        (a.gapRate = b.gapRate ∧ a.district ≤ b.district)))

instance : DecidableRel gapOrder := fun a b => by
  unfold gapOrder; infer_instance

instance : IsTotal DistrictGap gapOrder := ⟨by
  intro a b
  unfold gapOrder
  rcases lt_trichotomy a.gapCount b.gapCount with hc | hc | hc
  · exact Or.inr (Or.inl hc)
  · rcases lt_trichotomy a.gapRate b.gapRate with hr | hr | hr
    · exact Or.inr (Or.inr ⟨hc.symm, Or.inl hr⟩)
    · rcases le_total a.district b.district with hd | hd
      · exact Or.inl (Or.inr ⟨hc, Or.inr ⟨hr, hd⟩⟩)
      · exact Or.inr (Or.inr ⟨hc.symm, Or.inr ⟨hr.symm, hd⟩⟩)
    · exact Or.inl (Or.inr ⟨hc, Or.inl hr⟩)
  · exact Or.inl (Or.inl hc)⟩

instance : IsTrans DistrictGap gapOrder := ⟨by
  intro a b c hab hbc
  unfold gapOrder at hab hbc ⊢
  rcases hab with h1 | ⟨e1, h1⟩ <;> rcases hbc with h2 | ⟨e2, h2⟩
  · exact Or.inl (h2.trans h1)
  · exact Or.inl (e2 ▸ h1)
  · exact Or.inl (e1 ▸ h2)
  · refine Or.inr ⟨e1.trans e2, ?_⟩
    rcases h1 with hr1 | ⟨er1, hd1⟩ <;> rcases h2 with hr2 | ⟨er2, hd2⟩
    · exact Or.inl (hr2.trans hr1)
    · exact Or.inl (er2 ▸ hr1)
    · exact Or.inl (er1 ▸ hr2)
    · exact Or.inr ⟨er1.trans er2, hd1.trans hd2⟩⟩

instance : IsAntisymm DistrictGap gapOrder := ⟨by
  intro a b hab hba
  obtain ⟨ad, ar, ac⟩ := a
  obtain ⟨bd, br, bc⟩ := b
  simp only [gapOrder] at hab hba
  simp only [DistrictGap.mk.injEq]
  rcases hab with h1 | ⟨e1, h1⟩ <;> rcases hba with h2 | ⟨e2, h2⟩
  · exact absurd (h1.trans h2) (lt_irrefl _)
  · exact absurd (e2 ▸ h1) (lt_irrefl _)
  · exact absurd (e1 ▸ h2) (lt_irrefl _)
  · refine ⟨?_, ?_, e1⟩ <;>
      rcases h1 with hr1 | ⟨er1, hd1⟩ <;> rcases h2 with hr2 | ⟨er2, hd2⟩
    · exact absurd (hr1.trans hr2) (lt_irrefl _)
    · exact absurd (er2 ▸ hr1) (lt_irrefl _)
    · exact absurd (er1 ▸ hr2) (lt_irrefl _)
    · exact le_antisymm hd1 hd2
    · exact absurd (hr1.trans hr2) (lt_irrefl _)
    · exact absurd (er2 ▸ hr1) (lt_irrefl _)
    · exact absurd (er1 ▸ hr2) (lt_irrefl _)
    · exact er1⟩

/-- Modelled from the spec: `rank_districts_by_gap()` of section 4.5,
returning the aggregates sorted by `gapOrder`. -/
def rankDistrictsByGap (l : List DistrictGap) : List DistrictGap :=
  List.insertionSort gapOrder l

/-! Engine state, freeze administration and replay (spec sections 2-6) -/

/-- Modelled from the spec: corridor tracker state (section 4.4) —
last-known region per subject and directed flow counts per
(source, destination, bucket). -/
structure CorridorState where
  lastRegion : List (Nat × String)
  flows : List ((String × String × Nat) × Nat)
deriving DecidableEq, Repr

/-- The region string of an event's location, at state/district
granularity (e.g. "Bihar/Sitamarhi"). -/
def regionOf (loc : Location) : String := loc.state ++ "/" ++ loc.district

/-- Set the last-known region of a subject. -/
def setLastRegion : List (Nat × String) → Nat → String → List (Nat × String)
  | [], sid, r => [(sid, r)]
  | (s0, r0) :: rest, sid, r =>
    if s0 = sid then (s0, r) :: rest else (s0, r0) :: setLastRegion rest sid r

/-- The last-known region of a subject, if any. -/
def getLastRegion (l : List (Nat × String)) (sid : Nat) : Option String :=
  match l.find? (fun p => decide (p.1 = sid)) with
  | some p => some p.2
  | none => none

/-- Increment a directed corridor flow count, creating it at 1. -/
def bumpFlow : List ((String × String × Nat) × Nat) → String × String × Nat →
    List ((String × String × Nat) × Nat)
  | [], key => [(key, 1)]
  | (k0, c) :: rest, key =>
    if k0 = key then (k0, c + 1) :: rest else (k0, c) :: bumpFlow rest key

/-- Modelled from the spec: corridor ingestion (section 4.4) — an ENROLMENT
event records the subject's region; an address-type DEMOGRAPHIC_UPDATE
whose new region (the event's new value) differs from the last-known
region increments the directed flow for (source, destination) in the
event's bucket and moves the last-known region. -/
def corridorIngest (s : CorridorState) (e : Event) : CorridorState :=
  match e.eventType with
  | .enrolment =>
    { s with lastRegion :=
        setLastRegion s.lastRegion e.subjectId (regionOf e.location) }
  | .demographicUpdate =>
    if e.fieldChanged = some "address" then
      match getLastRegion s.lastRegion e.subjectId with
      | some src =>
        if src ≠ e.newValue then
          { s with
            flows := bumpFlow s.flows (src, e.newValue, bucketOf e.timestamp),
            lastRegion := setLastRegion s.lastRegion e.subjectId e.newValue }
        else s
      | none =>
        { s with lastRegion := setLastRegion s.lastRegion e.subjectId e.newValue }
    else s
  | .biometricUpdate => s

/-- Modelled from the spec: a `FreezeTicket` administrative record
(sections 6 and 9). -/
structure FreezeTicket where
  key : CohortKey
  authorizedBy : String
  reason : String
deriving DecidableEq, Repr

/-- Modelled from the spec: the full engine state — append-only event log,
aggregation windows, corridor tracker, the auditable list of freeze
tickets, and the counter of ingestions held by a freeze. -/
structure EngineState where
  events : List Event
  agg : AggState
  corridors : CorridorState
  freezes : List FreezeTicket
  heldEvents : Nat
deriving DecidableEq, Repr

/-- Whether ingestion for the cohort key is currently frozen. -/
def isFrozen (s : EngineState) (k : CohortKey) : Bool :=
  s.freezes.any fun t => decide (t.key = k)

/-- Modelled from the spec:
`freezeCohort(cohort_key, authorized_by, reason) -> FreezeTicket`
(section 6) — records an administrative freeze ticket; it does not delete
or mutate past events or derived statistics, only tags future ingestion
for that cohort key as held pending review. -/
def freezeCohort (s : EngineState) (k : CohortKey)
    (authorizedBy reason : String) : FreezeTicket × EngineState :=
  let t : FreezeTicket := ⟨k, authorizedBy, reason⟩
  (t, { s with freezes := s.freezes ++ [t] })

/-- One ingestion step of the pipeline (section 2 control flow): the event
is appended to the immutable log; if its cohort is frozen the ingestion
is tagged as held, otherwise the aggregation windows and the corridor
tracker update incrementally. -/
def engineStep (s : EngineState) (e : Event) : EngineState :=
  if isFrozen s (eventCohortKey e) then
    { s with events := s.events ++ [e], heldEvents := s.heldEvents + 1 }
  else
    { s with events := s.events ++ [e],
             agg := aggIngest s.agg e,
             corridors := corridorIngest s.corridors e }

/-- The empty engine state. -/
def engineInit : EngineState := ⟨[], ⟨[], [], 0⟩, ⟨[], []⟩, [], 0⟩

/-- Modelled from the spec: replaying an ordered event log through the
aggregation pipeline (section 6: statistics are exactly reproducible by
replaying the event log in timestamp order). -/
def replay (log : List Event) : EngineState :=
  List.foldl engineStep engineInit log

/-! Concrete sample data for the witnesses -/

/-- A sample cohort key used by the concrete witnesses. -/
def sampleKey : CohortKey := ("18-21", "M", "395001", EventType.demographicUpdate)

/-- A sample demographic-update event in bucket 0. -/
def sampleEvent : Event :=
  ⟨1, EventType.demographicUpdate, some "DOB", "2003", "2007",
   ⟨"395001", "Surat", "Gujarat"⟩, "18-21", "M", 10⟩

/-- A sample aggregation state in which `sampleKey`'s bucket 0 is closed. -/
def sampleClosedState : AggState := ⟨[], [⟨sampleKey, 0, 5⟩], 0⟩

/-- A sample list of district gap aggregates with a tie on gap_count
(7300) broken by gap_rate, and a full tie on gap_count and gap_rate
(5100, rate 1) broken by district name. -/
def sampleGapList : List DistrictGap :=
  [⟨"Darbhanga", 2, 7300⟩, ⟨"Banka", 1, 5100⟩, ⟨"Sitamarhi", 3, 11000⟩,
   ⟨"Madhubani", 1, 7300⟩, ⟨"Araria", 1, 5100⟩]

/-- `sampleGapList` in ranked order. -/
def sampleGapRanked : List DistrictGap :=
  [⟨"Sitamarhi", 3, 11000⟩, ⟨"Darbhanga", 2, 7300⟩, ⟨"Madhubani", 1, 7300⟩,
   ⟨"Araria", 1, 5100⟩, ⟨"Banka", 1, 5100⟩]

end Prerana

namespace Prerana

/-- Claim C9: for each of the three action names and every summary-stats
state with non-negative values, `handleAction` leaves every stat value
non-negative (each decrement is clamped at zero via `Math.max(0, ...)`)
and modifies the value of at most one stat. -/
theorem handleAction_nonneg_single_stat (action : String) (s : SummaryStats)
    (hname : action = "allocate-ration" ∨ action = "freeze-updates" ∨
      action = "deploy-van")
    (hpos : StatsNonneg s) :
    StatsNonneg (handleActionStats action s) ∧
      changedFields s (handleActionStats action s) ≤ 1 := by
  obtain ⟨h1, h2, h3, h4⟩ := hpos
  rcases hname with h | h | h <;> subst h <;>
    simp +decide only [handleActionStats, StatsNonneg, changedFields, reduceIte,
      eq_self_iff_true, if_true] <;>
    refine ⟨⟨?_, ?_, ?_, ?_⟩, ?_⟩ <;>
    try assumption
  all_goals try exact le_max_left 0 _
  all_goals split <;> simp

/-- Witness for C9: the dashboard's initial stats under `allocate-ration`. -/
theorem handleAction_nonneg_single_stat_witness :
    StatsNonneg (handleActionStats "allocate-ration" initialSummaryStats) ∧
      changedFields initialSummaryStats
        (handleActionStats "allocate-ration" initialSummaryStats) ≤ 1 :=
  handleAction_nonneg_single_stat "allocate-ration" initialSummaryStats
    (Or.inl rfl) (by refine ⟨?_, ?_, ?_, ?_⟩ <;> norm_num [initialSummaryStats])

/-- Claim C10: the rendered total `totalGap` equals the sum of the `gap`
fields of the hardcoded `districtData` array, 11000 + 7300 + 7200 + 5100
= 30600, and in every row `gap` equals `enrolled` minus `updated`. -/
theorem totalGap_sum_of_gaps :
    totalGap = 11000 + 7300 + 7200 + 5100 ∧ totalGap = 30600 ∧
      (districtData.all fun d => d.enrolled - d.updated == d.gap) = true := by
  refine ⟨by decide, by decide, by decide⟩

/-- If (k, b) is not yet closed in s and s2 extends s's closed list with the
freshly finalized record for (k, b), that record is found in s2. -/
theorem findClosed_extend (s s2 : AggState) (k : CohortKey) (b c : Nat)
    (hf : findClosed s k b = none)
    (h2 : s2.closedWindows = s.closedWindows ++ [⟨k, b, c⟩]) :
    findClosed s2 k b = some ⟨k, b, c⟩ := by
  unfold findClosed at hf ⊢
  rw [h2, List.find?_append, hf]
  simp

/-- Claim C4: ingesting an event whose timestamp falls in an already-closed
bucket only increments the `late_events` side-counter (the state is
otherwise unchanged); moreover no ingestion whatsoever modifies any closed
window's finalized record (closed windows are never reopened or
retroactively modified). -/
theorem ingest_late_closed_immutable (s : AggState) (e : Event)
    (hlate : isClosedWindow s (eventCohortKey e) (bucketOf e.timestamp) = true) :
    aggIngest s e = { s with lateEvents := s.lateEvents + 1 } ∧
      ∀ (s0 : AggState) (e0 : Event),
        (aggIngest s0 e0).closedWindows = s0.closedWindows := by
  constructor
  · simp [aggIngest, hlate]
  · intro s0 e0
    simp only [aggIngest]
    split <;> rfl

/-- Witness for C4: a late event against a state whose bucket is closed. -/
theorem ingest_late_closed_immutable_witness :
    isClosedWindow sampleClosedState (eventCohortKey sampleEvent)
      (bucketOf sampleEvent.timestamp) = true ∧
    aggIngest sampleClosedState sampleEvent =
      { sampleClosedState with lateEvents := sampleClosedState.lateEvents + 1 } :=
  ⟨rfl, (ingest_late_closed_immutable sampleClosedState sampleEvent rfl).1⟩

/-- Claim C5: `close_window` is idempotent — closing an already-closed
window is a no-op, and both the state and the returned finalized record
after closing twice equal those after closing once. -/
theorem closeWindow_idempotent (s : AggState) (k : CohortKey) (b : Nat) :
    closeWindow (closeWindow s k b).1 k b = closeWindow s k b := by
  cases hf : findClosed s k b with
  | some w =>
    have h1 : closeWindow s k b = (s, w) := by unfold closeWindow; rw [hf]
    rw [h1]
    exact h1
  | none =>
    have h1 : closeWindow s k b =
        (AggState.mk (removeOpen s k b)
          (s.closedWindows ++ [⟨k, b, lookupOpen s k b⟩]) s.lateEvents,
         ⟨k, b, lookupOpen s k b⟩) := by
      unfold closeWindow; rw [hf]
    rw [h1]
    unfold closeWindow
    rw [findClosed_extend s _ k b (lookupOpen s k b) hf rfl]

/-- Claim C2: when the trailing-baseline sample standard deviation is 0
(equivalently, the sample variance is 0) and the baseline is large enough
for scoring, the scorer returns z = 0 if the window count equals μ and
the finite sentinel 999 if it differs; both branches are exact rational
values — no NaN and no division occur. -/
theorem scorer_sigma_zero_total (count : Nat) (baseline : List Nat)
    (hlen : defaultMinBaseline ≤ baseline.length)
    (hvar : sampleVariance baseline = 0) :
    ((count : ℚ) = listMean baseline →
      (scoreWindow defaultMinBaseline defaultThreshold count baseline).zScore =
        ZVal.val 0) ∧
    ((count : ℚ) ≠ listMean baseline →
      (scoreWindow defaultMinBaseline defaultThreshold count baseline).zScore =
        ZVal.val 999) := by
  have hnot : ¬ baseline.length < defaultMinBaseline := not_lt.mpr hlen
  constructor <;> intro hc <;> simp [scoreWindow, hnot, hvar, hc]

/-- Witness for C2: an all-equal baseline of length 7 (σ = 0); count equal
to μ yields z = 0. -/
theorem scorer_sigma_zero_total_witness :
    defaultMinBaseline ≤ ([5, 5, 5, 5, 5, 5, 5] : List Nat).length ∧
    sampleVariance [5, 5, 5, 5, 5, 5, 5] = 0 ∧
    ((5 : Nat) : ℚ) = listMean [5, 5, 5, 5, 5, 5, 5] ∧
    (scoreWindow defaultMinBaseline defaultThreshold 5
      [5, 5, 5, 5, 5, 5, 5]).zScore = ZVal.val 0 :=
  ⟨by decide, by norm_num [sampleVariance, listMean],
   by norm_num [listMean],
   (scorer_sigma_zero_total 5 [5, 5, 5, 5, 5, 5, 5] (by decide)
       (by norm_num [sampleVariance, listMean])).1
     (by norm_num [listMean])⟩

/-- Claim C3: with fewer than the minimum number of prior closed baseline
windows the scorer returns status INSUFFICIENT_BASELINE and never flags
the window anomalous, regardless of the computed z value. -/
theorem scorer_insufficient_baseline (minBaseline : Nat) (threshold : ℚ)
    (count : Nat) (baseline : List Nat)
    (hlen : baseline.length < minBaseline) :
    (scoreWindow minBaseline threshold count baseline).status =
      ScoreStatus.insufficientBaseline ∧
    (scoreWindow minBaseline threshold count baseline).isAnomalous = false := by
  simp [scoreWindow, hlen]

/-- Witness for C3: a 3-window baseline under the default minimum of 7,
with an extreme count. -/
theorem scorer_insufficient_baseline_witness :
    [1, 2, 3].length < defaultMinBaseline ∧
    (scoreWindow defaultMinBaseline defaultThreshold 1000 [1, 2, 3]).status =
      ScoreStatus.insufficientBaseline ∧
    (scoreWindow defaultMinBaseline defaultThreshold 1000
      [1, 2, 3]).isAnomalous = false :=
  ⟨by decide,
   (scorer_insufficient_baseline defaultMinBaseline defaultThreshold 1000
     [1, 2, 3] (by decide)).1,
   (scorer_insufficient_baseline defaultMinBaseline defaultThreshold 1000
     [1, 2, 3] (by decide)).2⟩

/-- Claim C6: at window closure, with a positive baseline (the mean of the
trailing windows for the pair) the corridor velocity is exactly
(update_count - baseline) / baseline * 100; with baseline 0 the result is
`none` (unbounded / "new corridor"), not a numeric ratio; and
update_count = 100 against baseline 25 yields 300 percent. -/
theorem corridor_velocity_formula (u : Nat) (hist : List Nat)
    (hpos : 0 < corridorBaseline hist) :
    scoreCorridor u hist =
      some (((u : ℚ) - corridorBaseline hist) / corridorBaseline hist * 100) ∧
    (∀ h0 : List Nat, corridorBaseline h0 = 0 →
      ∀ u0 : Nat, scoreCorridor u0 h0 = none) ∧
    scoreCorridor 100 [25, 25, 25, 25] = some 300 := by
  refine ⟨?_, ?_, by norm_num [scoreCorridor, velocityChangePct,
    corridorBaseline, listMean]⟩
  · simp [scoreCorridor, velocityChangePct, hpos.ne']
  · intro h0 hz u0
    simp [scoreCorridor, velocityChangePct, hz]

/-- Witness for C6: a four-window history of 25 gives baseline 25, and 100
updates give exactly 300 percent. -/
theorem corridor_velocity_formula_witness :
    0 < corridorBaseline [25, 25, 25, 25] ∧
    scoreCorridor 100 [25, 25, 25, 25] = some 300 :=
  ⟨by norm_num [corridorBaseline, listMean],
   (corridor_velocity_formula 100 [25, 25, 25, 25]
     (by norm_num [corridorBaseline, listMean])).2.2⟩

/-- Claim C7: `rankDistrictsByGap` returns the district aggregates totally
ordered by `gapOrder` (descending gap_count, ties by descending gap_rate,
then ascending district name), as a permutation of its input, and this
output is the unique `gapOrder`-sorted permutation — so the order is
deterministic for every input, including ties. -/
theorem rankDistricts_deterministic_order (l : List DistrictGap) :
    List.Sorted gapOrder (rankDistrictsByGap l) ∧
    List.Perm (rankDistrictsByGap l) l ∧
    ∀ l2 : List DistrictGap, List.Perm l2 l → List.Sorted gapOrder l2 →
      l2 = rankDistrictsByGap l :=
  ⟨List.sorted_insertionSort gapOrder l, List.perm_insertionSort gapOrder l,
   fun _ hp hs =>
     List.eq_of_perm_of_sorted
       (hp.trans (List.perm_insertionSort gapOrder l).symm) hs
       (List.sorted_insertionSort gapOrder l)⟩

/-- Witness for C7: on a concrete input with a gap_count tie, the unique
sorted permutation (tie broken by gap_rate, then name) is the ranked
output. -/
theorem rankDistricts_deterministic_order_witness :
    List.Perm sampleGapRanked sampleGapList ∧
    List.Sorted gapOrder sampleGapRanked ∧
    sampleGapRanked = rankDistrictsByGap sampleGapList := by
  have hsorted : List.Sorted gapOrder sampleGapRanked := by
    norm_num [sampleGapRanked, List.sorted_cons, gapOrder]
    decide
  exact ⟨by decide, hsorted,
    (rankDistricts_deterministic_order sampleGapList).2.2 sampleGapRanked
      (by decide) hsorted⟩

/-- Claim C1: the aggregation pipeline is a deterministic function of the
ordered event log — replaying the same ordered log twice yields identical
closed-window (CohortWindow) and corridor-flow (CorridorFlow) aggregates,
indeed identical states — and the result depends only on the concatenated
ordered sequence, not on how the log is split into batches. -/
theorem replay_deterministic (l1 l2 : List Event) (h : l1 = l2) :
    ((replay l1).agg.closedWindows = (replay l2).agg.closedWindows ∧
     (replay l1).corridors.flows = (replay l2).corridors.flows ∧
     replay l1 = replay l2) ∧
    ∀ p q : List Event,
      replay (p ++ q) = List.foldl engineStep (replay p) q := by
  subst h
  exact ⟨⟨rfl, rfl, rfl⟩, fun p q => by simp [replay, List.foldl_append]⟩

/-- Witness for C1: two replays of the same one-event log coincide. -/
theorem replay_deterministic_witness :
    [sampleEvent] = [sampleEvent] ∧
    replay [sampleEvent] = replay [sampleEvent] :=
  ⟨rfl, (replay_deterministic [sampleEvent] [sampleEvent] rfl).1.2.2⟩

/-- Claim C8: `freezeCohort` returns a FreezeTicket and leaves the past
event log, the aggregation state (hence every closed window's statistics),
the corridor flows and the held counter unchanged; its only state change
is appending the ticket, after which ingestion for that cohort key is
tagged as held (the event still reaches the immutable log; no aggregate
changes). Nothing is deleted or mutated. -/
theorem freezeCohort_frame (s : EngineState) (k : CohortKey)
    (authorizedBy reason : String) :
    (freezeCohort s k authorizedBy reason).2.events = s.events ∧
    (freezeCohort s k authorizedBy reason).2.agg = s.agg ∧
    (freezeCohort s k authorizedBy reason).2.corridors = s.corridors ∧
    (freezeCohort s k authorizedBy reason).2.heldEvents = s.heldEvents ∧
    (freezeCohort s k authorizedBy reason).2.freezes =
      s.freezes ++ [(freezeCohort s k authorizedBy reason).1] ∧
    isFrozen (freezeCohort s k authorizedBy reason).2 k = true ∧
    ∀ e : Event, eventCohortKey e = k →
      engineStep (freezeCohort s k authorizedBy reason).2 e =
        { (freezeCohort s k authorizedBy reason).2 with
            events := (freezeCohort s k authorizedBy reason).2.events ++ [e],
            heldEvents :=
              (freezeCohort s k authorizedBy reason).2.heldEvents + 1 } := by
  refine ⟨rfl, rfl, rfl, rfl, rfl, ?_, ?_⟩
  · simp [isFrozen, freezeCohort]
  · intro e he
    have hf : isFrozen (freezeCohort s k authorizedBy reason).2
        (eventCohortKey e) = true := by
      simp [isFrozen, freezeCohort, he]
    simp [engineStep, hf]

/-- Witness for C8: freezing `sampleKey` on the empty engine, then
ingesting a matching event: it is recorded as held. -/
theorem freezeCohort_frame_witness :
    eventCohortKey sampleEvent = sampleKey ∧
    engineStep (freezeCohort engineInit sampleKey "admin" "review").2
        sampleEvent =
      { (freezeCohort engineInit sampleKey "admin" "review").2 with
          events := (freezeCohort engineInit sampleKey "admin"
            "review").2.events ++ [sampleEvent],
          heldEvents := (freezeCohort engineInit sampleKey "admin"
            "review").2.heldEvents + 1 } :=
  ⟨rfl, (freezeCohort_frame engineInit sampleKey "admin"
      "review").2.2.2.2.2.2 sampleEvent rfl⟩

end Prerana
